import Mathlib

/-!
Verification of the DyeMind orchestration core (`app.py`).

The Python source is shallowly embedded: JSON values become an inductive
`Json` type, HTTP calls become explicit outcome parameters (the body the
server answered with, or the exception `requests` raised), and the retry
loop of `generate_ai_review` becomes a fuel-indexed recursion that records
how many `time.sleep(3)` calls were made and how many inference attempts
were consumed.  Python exceptions that can escape a function are modelled
with `Except String`; exceptions swallowed by a `try/except` in the source
are folded into the corresponding absent-result sentinel, exactly as the
source does.
-/

set_option maxRecDepth 8000

namespace DyeMind

/-- JSON values as decoded by `response.json()`.  JSON numbers are modelled
as integers (no claim involves fractional values). -/
inductive Json where
  | null : Json
  | num : Int → Json
  | str : String → Json
  | arr : List Json → Json
  | obj : List (String × Json) → Json

/-- Key lookup in a JSON object's field list (Python `d[k]` / `k in d`). -/
def lookupKey : List (String × Json) → String → Option Json
  | [], _ => none
  | (k, v) :: t, key => if k = key then some v else lookupKey t key

/-- Python truthiness (`if x:`) of a JSON value. -/
def Json.truthy : Json → Bool
  | .null => false
  | .num n => n != 0
  | .str s => s != ""
  | .arr l => !l.isEmpty
  | .obj fs => !fs.isEmpty

/-- Python `str()` of a JSON value, as used inside the source's f-strings.
Strings pass through verbatim, integers print in decimal, `None` prints as
`"None"`; container rendering is abbreviated (no claim exercises it). -/
def jsonToPyStr : Json → String
  | .str s => s
  | .num n => toString n
  | .null => "None"
  | .arr _ => "[list]"
  | .obj _ => "[dict]"

/-- Python `str()` of an optional string (`None` prints as `"None"`). -/
def pyStrOpt : Option String → String
  | some s => s
  | none => "None"

/-- Python `s.lower()` (character-wise lowercasing). -/
def pyLower (s : String) : String := (s.data.map Char.toLower).asString

/-- Python slicing `s[:n]` on a string. -/
def pyTake (s : String) (n : Nat) : String := (s.data.take n).asString

/-- `listStartsWith p s` holds when `p` is a prefix of `s`. -/
def listStartsWith : List Char → List Char → Bool
  | [], _ => true
  | _ :: _, [] => false
  | p :: ps, c :: cs => p == c && listStartsWith ps cs

/-- `listContains p s` holds when `p` occurs contiguously inside `s`. -/
def listContains (p : List Char) : List Char → Bool
  | [] => listStartsWith p []
  | c :: cs => listStartsWith p (c :: cs) || listContains p cs

/-- Python `pat in s` on strings: contiguous-substring test. -/
def strContains (s pat : String) : Bool := listContains pat.data s.data

/-! ### Inference client (`query_huggingface`, app.py lines 24-36) -/

/-- The model endpoint hard-coded in `query_huggingface`. -/
def API_URL : String :=
  "https://api-inference.huggingface.co/models/EssentialAI/rnj-1-instruct"

/-- Outcome of one `requests.post(...)` round-trip as seen by
`query_huggingface`: either a 2xx answer whose body decoded to JSON, or an
exception (non-success status via `raise_for_status`, JSON decode failure,
timeout, connection error, ...) carrying Python's `str(e)`. -/
inductive HttpOutcome where
  | body : Json → HttpOutcome
  | exn : String → HttpOutcome

/-- `str(e)` of the `requests.exceptions.HTTPError` that `raise_for_status`
raises on a 5xx status: `"<code> Server Error: <reason> for url: <url>"`. -/
def serverErrorMessage (status : Nat) (reason url : String) : String :=
  toString status ++ " Server Error: " ++ reason ++ " for url: " ++ url

/-- `query_huggingface` (app.py lines 24-36): returns the decoded body on
success and `{"error": str(e)}` when any exception was raised. -/
def query_huggingface : HttpOutcome → Json
  | .body j => j
  | .exn m => .obj [("error", .str m)]

/-- `parse_hf_output` (app.py lines 38-52): extracts `generated_text` from
a non-empty list whose first element is a dict carrying the field, or from
a dict carrying the field; `None` otherwise. -/
def parse_hf_output (output : Json) : Option Json :=
  match output with
  | .arr (first :: _) =>
    match first with
    | .obj fs =>
      match lookupKey fs "generated_text" with
      | some t => some t
      | none => none
    | _ => none
  | .obj fs => lookupKey fs "generated_text"
  | _ => none

/-! ### Report generator (`generate_ai_review`, app.py lines 54-110) -/

/-- A chemical record as built by `get_pubchem_data` (app.py lines 131-137).
Field values taken from decoded JSON stay `Json`. -/
structure ChemData where
  cid : Json
  smiles : Json
  formula : Json
  image : String
  link : String

/-- A literature record as built by `get_pubmed_literature` (app.py line
167): `title` is `findtext` output (possibly `None`), `abstract` is the
non-empty abstract text that passed the `if abstract:` filter. -/
structure Article where
  title : Option String
  abstract : String

/-- The chemistry context block (app.py line 59):
`f"SMILES: {chem_data['smiles']}" if chem_data else "Structure unavailable."` -/
def chem_context : Option ChemData → String
  | some c => "SMILES: " ++ jsonToPyStr c.smiles
  | none => "Structure unavailable."

/-- One literature item as rendered by the loop body (app.py line 64):
`f"- Title: {art['title']}\n  Abstract: {art['abstract'][:300]}...\n"`. -/
def renderArticle (a : Article) : String :=
  "- Title: " ++ pyStrOpt a.title ++ "\n  Abstract: " ++ pyTake a.abstract 300 ++ "...\n"

/-- The literature context block (app.py lines 61-66): the first 3 articles
rendered in order, or a fixed placeholder when the list is empty. -/
def lit_context (articles : List Article) : String :=
  if articles.isEmpty then "No specific literature abstracts found in PubMed."
  else String.join ((articles.take 3).map renderArticle)

/-- Prompt segment before the query placeholder (app.py line 69). -/
def promptPre : String :=
  "[INST] You are an expert chemical biologist. Write a short, professional scientific summary for the fluorescent probe: \""

/-- Prompt segment between the query and the chemistry block. -/
def promptMid1 : String := "\".\n\nUse these data sources:\nCHEMISTRY: "

/-- Prompt segment between the chemistry and the literature block. -/
def promptMid2 : String := "\nLITERATURE: \n"

/-- Prompt segment after the literature block (app.py lines 76-83),
holding the required section structure. -/
def promptTail : String :=
  "\n\nFormat the response strictly as follows:\n**1. Overview:** What is it and what is it used for?\n**2. Properties:** Mention structure and excitation/emission if known.\n**3. Performance:** Extract any Limit of Detection (LOD) or sensitivity mentions.\n**4. Applications:** Key use cases (e.g. mitochondria, ROS, ions).\n\nKeep it concise, scientific, and factual. Do not hallucinate data. [/INST]\n"

/-- The f-string prompt of app.py lines 69-83. -/
def buildPrompt (chemCtx litCtx query : String) : String :=
  promptPre ++ (query ++ (promptMid1 ++ (chemCtx ++ (promptMid2 ++ (litCtx ++ promptTail)))))

/-- The fixed fallback returned when the retry budget is exhausted
(app.py line 110). -/
def busyMessage : String :=
  "⚠️ AI Service Busy or unexpected response format. Please try again in 30 seconds."

/-- The Python test `isinstance(output, dict) and "error" in output`
(app.py line 98), returning the error field's value when it applies. -/
def errorText (output : Json) : Option Json :=
  match output with
  | .obj fs => lookupKey fs "error"
  | _ => none

/-- Result of the retry loop of app.py lines 87-110: the value returned
(or the exception raised), the number of `time.sleep(3)` calls, and the
number of inference attempts consumed. -/
structure LoopResult where
  value : Except String Json
  sleeps : Nat
  attempts : Nat

/-- The retry loop `for attempt in range(3)` of app.py lines 87-110,
with the server's per-attempt behaviour abstracted as `resp`.  A non-string
error value makes `output["error"].lower()` raise `AttributeError`. -/
def genLoop (resp : Nat → HttpOutcome) (attempt fuel sleeps : Nat) : LoopResult :=
  match fuel with
  | 0 => ⟨.ok (.str busyMessage), sleeps, attempt⟩
  | f + 1 =>
    let output := query_huggingface (resp attempt)
    match errorText output with
    | some (.str e) =>
      if strContains (pyLower e) "loading" then genLoop resp (attempt + 1) f (sleeps + 1)
      else ⟨.ok (.str ("⚠️ AI Error: " ++ e)), sleeps, attempt + 1⟩
    | some _ => ⟨.error "AttributeError", sleeps, attempt + 1⟩
    | none =>
      match parse_hf_output output with
      | some t => if Json.truthy t then ⟨.ok t, sleeps, attempt + 1⟩
                  else genLoop resp (attempt + 1) f sleeps
      | none => genLoop resp (attempt + 1) f sleeps

/-- Full result of `generate_ai_review`: the prompt built at lines 69-83
plus the outcome of the retry loop. -/
structure GenResult where
  prompt : String
  value : Except String Json
  sleeps : Nat
  attempts : Nat

/-- `generate_ai_review` (app.py lines 54-110). -/
def generate_ai_review (chem_data : Option ChemData) (articles : List Article)
    (query : String) (resp : Nat → HttpOutcome) : GenResult :=
  ⟨buildPrompt (chem_context chem_data) (lit_context articles) query,
   (genLoop resp 0 3 0).value, (genLoop resp 0 3 0).sleeps, (genLoop resp 0 3 0).attempts⟩

/-- A concrete attempt-indexed server behaviour given by a list (attempts
past the end of the list see a transport failure). -/
def respSeq (l : List HttpOutcome) (n : Nat) : HttpOutcome :=
  l.getD n (.exn "connection aborted")

/-! ### Chemistry lookup client (`get_pubchem_data`, app.py lines 114-139) -/

/-- Python subscripting `j[k]` on a decoded JSON value: `KeyError` when the
key is missing, `TypeError` when the value is not a dict. -/
def pyKey (j : Json) (k : String) : Except Unit Json :=
  match j with
  | .obj fs =>
    match lookupKey fs k with
    | some v => .ok v
    | none => .error ()
  | _ => .error ()

/-- Python `j[0]` on a decoded JSON value: first list element, first
character of a string, error otherwise (`IndexError` / `TypeError`). -/
def pyIndex0 : Json → Except Unit Json
  | .arr (x :: _) => .ok x
  | .arr [] => .error ()
  | .str s =>
    match s.data with
    | c :: _ => .ok (.str (String.singleton c))
    | [] => .error ()
  | _ => .error ()

/-- Python `j.get(k, d)` on a decoded JSON value: `AttributeError` when the
value is not a dict. -/
def pyGetDefault (j : Json) (k : String) (d : Json) : Except Unit Json :=
  match j with
  | .obj fs => .ok ((lookupKey fs k).getD d)
  | _ => .error ()

/-- PubChem REST base URL (app.py line 118). -/
def pubchemBase : String := "https://pubchem.ncbi.nlm.nih.gov/rest/pug"

/-- The structure-image URL built from the identifier (app.py line 135). -/
def pubchemImage (cid : Json) : String :=
  pubchemBase ++ "/compound/cid/" ++ jsonToPyStr cid ++ "/PNG?record_type=2d&image_size=large"

/-- The canonical compound link built from the identifier (app.py line 136). -/
def pubchemLink (cid : Json) : String :=
  "https://pubchem.ncbi.nlm.nih.gov/compound/" ++ jsonToPyStr cid

/-- `get_pubchem_data` (app.py lines 114-139).  `searchRes` is the outcome
of the name-search request (`.json()` already applied), `propsRes cid` the
outcome of the property request for the resolved identifier; `.error ()`
stands for any exception in that step.  The enclosing `try/except` turns
every exception into `None`. -/
def get_pubchem_data (searchRes : Except Unit Json)
    (propsRes : Json → Except Unit Json) : Option ChemData :=
  match searchRes with
  | .error _ => none
  | .ok search =>
    match pyKey search "IdentifierList" with
    | .error _ => none
    | .ok il =>
      match pyKey il "CID" with
      | .error _ => none
      | .ok cids =>
        match pyIndex0 cids with
        | .error _ => none
        | .ok cid =>
          match propsRes cid with
          | .error _ => none
          | .ok props =>
            match pyKey props "PropertyTable" with
            | .error _ => none
            | .ok pt =>
              match pyKey pt "Properties" with
              | .error _ => none
              | .ok plist =>
                match pyIndex0 plist with
                | .error _ => none
                | .ok prop_data =>
                  match pyGetDefault prop_data "CanonicalSMILES" (.str "N/A") with
                  | .error _ => none
                  | .ok smiles =>
                    match pyGetDefault prop_data "MolecularFormula" (.str "N/A") with
                    | .error _ => none
                    | .ok formula =>
                      some ⟨cid, smiles, formula, pubchemImage cid, pubchemLink cid⟩

/-! ### Literature lookup client (`get_pubmed_literature`, app.py lines 141-170) -/

/-- The search term built at app.py line 146. -/
def pubmedTerm (query : String) : String :=
  query ++ " AND (fluorescent OR probe OR sensor)"

/-- One `PubmedArticle` node of the fetched XML, reduced to the two
`findtext` results the source reads (app.py lines 164-165); `none` when
the tag is absent. -/
structure RawArticle where
  title : Option String
  abstract : Option String

/-- Whether `','.join(ids)` (app.py line 157) raises on the decoded
`idlist` value: it iterates lists (raising on a non-string element) and
strings (yielding characters), and raises `TypeError` on anything else. -/
def joinRaisesOn : Json → Bool
  | .arr l => l.any (fun x => match x with | .str _ => false | _ => true)
  | .str _ => false
  | _ => true

/-- The append-filter loop of app.py lines 162-167: keep only articles
whose abstract is present and non-empty (`if abstract:`), in document
order. -/
def collectArticles : List RawArticle → List Article
  | [] => []
  | r :: rs =>
    match r.abstract with
    | some ab => if ab = "" then collectArticles rs else ⟨r.title, ab⟩ :: collectArticles rs
    | none => collectArticles rs

/-- `get_pubmed_literature` (app.py lines 141-170).  `searchRes` is the
outcome of the `esearch` request, `fetchRes` the outcome of the `efetch`
request plus XML parse, reduced to the list of `PubmedArticle` nodes.  The
enclosing `try/except` turns every exception into `[]`. -/
def get_pubmed_literature (searchRes : Except Unit Json)
    (fetchRes : Except Unit (List RawArticle)) : List Article :=
  match searchRes with
  | .error _ => []
  | .ok search =>
    match pyGetDefault search "esearchresult" (.obj []) with
    | .error _ => []
    | .ok esr =>
      match pyGetDefault esr "idlist" (.arr []) with
      | .error _ => []
      | .ok ids =>
        if ids.truthy = false then []
        else if joinRaisesOn ids then []
        else
          match fetchRes with
          | .error _ => []
          | .ok raw => collectArticles raw

/-! ### Query-handling block (app.py lines 188-228) -/

/-- Observable outcome of the `if query:` block: nothing rendered, a
generated review, or the "No data found" warning. -/
inductive UIOutcome where
  | idle : UIOutcome
  | review : GenResult → UIOutcome
  | noData : UIOutcome

/-- The query-handling block of app.py lines 188-228: lookups run first,
then `if chem or articles:` guards the call to `generate_ai_review`, with
the "No data found" warning in the `else` branch. -/
def handle_query (query : String) (chem : Option ChemData) (articles : List Article)
    (resp : Nat → HttpOutcome) : UIOutcome :=
  if query = "" then .idle
  else if chem.isSome || !articles.isEmpty then
    .review (generate_ai_review chem articles query resp)
  else .noData

/-! ### Helper lemmas about the retry loop -/

theorem genLoop_fuel_zero (resp : Nat → HttpOutcome) (a s : Nat) :
    genLoop resp a 0 s = ⟨.ok (.str busyMessage), s, a⟩ := rfl

/-- Whether a JSON value is a string (Python would call `.lower()` on it
without raising). -/
def Json.isStr : Json → Bool
  | .str _ => true
  | _ => false

theorem genLoop_loading (resp : Nat → HttpOutcome) (a f s : Nat) (e : String)
    (he : errorText (query_huggingface (resp a)) = some (.str e))
    (hl : strContains (pyLower e) "loading" = true) :
    genLoop resp a (f + 1) s = genLoop resp (a + 1) f (s + 1) := by
  simp [genLoop, he, hl]

theorem genLoop_error_stop (resp : Nat → HttpOutcome) (a f s : Nat) (e : String)
    (he : errorText (query_huggingface (resp a)) = some (.str e))
    (hl : strContains (pyLower e) "loading" = false) :
    genLoop resp a (f + 1) s = ⟨.ok (.str ("⚠️ AI Error: " ++ e)), s, a + 1⟩ := by
  simp [genLoop, he, hl]

theorem genLoop_attr (resp : Nat → HttpOutcome) (a f s : Nat) (v : Json)
    (he : errorText (query_huggingface (resp a)) = some v)
    (hv : v.isStr = false) :
    genLoop resp a (f + 1) s = ⟨.error "AttributeError", s, a + 1⟩ := by
  cases v with
  | str e => simp [Json.isStr] at hv
  | null => simp [genLoop, he]
  | num n => simp [genLoop, he]
  | arr l => simp [genLoop, he]
  | obj fs => simp [genLoop, he]

theorem genLoop_success (resp : Nat → HttpOutcome) (a f s : Nat) (t : Json)
    (he : errorText (query_huggingface (resp a)) = none)
    (hp : parse_hf_output (query_huggingface (resp a)) = some t)
    (ht : Json.truthy t = true) :
    genLoop resp a (f + 1) s = ⟨.ok t, s, a + 1⟩ := by
  simp [genLoop, he, hp, ht]

theorem genLoop_skip_falsy (resp : Nat → HttpOutcome) (a f s : Nat) (t : Json)
    (he : errorText (query_huggingface (resp a)) = none)
    (hp : parse_hf_output (query_huggingface (resp a)) = some t)
    (ht : Json.truthy t = false) :
    genLoop resp a (f + 1) s = genLoop resp (a + 1) f s := by
  simp [genLoop, he, hp, ht]

theorem genLoop_skip_none (resp : Nat → HttpOutcome) (a f s : Nat)
    (he : errorText (query_huggingface (resp a)) = none)
    (hp : parse_hf_output (query_huggingface (resp a)) = none) :
    genLoop resp a (f + 1) s = genLoop resp (a + 1) f s := by
  simp [genLoop, he, hp]

theorem genLoop_attempts_le (resp : Nat → HttpOutcome) :
    ∀ f a s, (genLoop resp a f s).attempts ≤ a + f := by
  intro f
  induction f with
  | zero => intro a s; rw [genLoop_fuel_zero]; exact Nat.le_refl a
  | succ f ih =>
    intro a s
    cases he : errorText (query_huggingface (resp a)) with
    | none =>
      cases hp : parse_hf_output (query_huggingface (resp a)) with
      | none =>
        rw [genLoop_skip_none resp a f s he hp]
        have := ih (a + 1) s; omega
      | some t =>
        cases ht : Json.truthy t with
        | true =>
          rw [genLoop_success resp a f s t he hp ht]
          show a + 1 ≤ a + (f + 1); omega
        | false =>
          rw [genLoop_skip_falsy resp a f s t he hp ht]
          have := ih (a + 1) s; omega
    | some v =>
      cases hv : v.isStr with
      | false =>
        rw [genLoop_attr resp a f s v he hv]
        show a + 1 ≤ a + (f + 1); omega
      | true =>
        cases v with
        | str e =>
          cases hl : strContains (pyLower e) "loading" with
          | true =>
            rw [genLoop_loading resp a f s e he hl]
            have := ih (a + 1) (s + 1); omega
          | false =>
            rw [genLoop_error_stop resp a f s e he hl]
            show a + 1 ≤ a + (f + 1); omega
        | null => simp [Json.isStr] at hv
        | num n => simp [Json.isStr] at hv
        | arr l => simp [Json.isStr] at hv
        | obj fs => simp [Json.isStr] at hv

theorem genLoop_attempts_lb (resp : Nat → HttpOutcome) :
    ∀ f a s, a ≤ (genLoop resp a f s).attempts := by
  intro f
  induction f with
  | zero => intro a s; rw [genLoop_fuel_zero]
  | succ f ih =>
    intro a s
    cases he : errorText (query_huggingface (resp a)) with
    | none =>
      cases hp : parse_hf_output (query_huggingface (resp a)) with
      | none =>
        rw [genLoop_skip_none resp a f s he hp]
        have := ih (a + 1) s; omega
      | some t =>
        cases ht : Json.truthy t with
        | true =>
          rw [genLoop_success resp a f s t he hp ht]
          show a ≤ a + 1; omega
        | false =>
          rw [genLoop_skip_falsy resp a f s t he hp ht]
          have := ih (a + 1) s; omega
    | some v =>
      cases hv : v.isStr with
      | false =>
        rw [genLoop_attr resp a f s v he hv]
        show a ≤ a + 1; omega
      | true =>
        cases v with
        | str e =>
          cases hl : strContains (pyLower e) "loading" with
          | true =>
            rw [genLoop_loading resp a f s e he hl]
            have := ih (a + 1) (s + 1); omega
          | false =>
            rw [genLoop_error_stop resp a f s e he hl]
            show a ≤ a + 1; omega
        | null => simp [Json.isStr] at hv
        | num n => simp [Json.isStr] at hv
        | arr l => simp [Json.isStr] at hv
        | obj fs => simp [Json.isStr] at hv

theorem genLoop_attempts_pos (resp : Nat → HttpOutcome) (f a s : Nat) :
    a + 1 ≤ (genLoop resp a (f + 1) s).attempts := by
  cases he : errorText (query_huggingface (resp a)) with
  | none =>
    cases hp : parse_hf_output (query_huggingface (resp a)) with
    | none =>
      rw [genLoop_skip_none resp a f s he hp]
      exact genLoop_attempts_lb resp f (a + 1) s
    | some t =>
      cases ht : Json.truthy t with
      | true =>
        rw [genLoop_success resp a f s t he hp ht]
      | false =>
        rw [genLoop_skip_falsy resp a f s t he hp ht]
        exact genLoop_attempts_lb resp f (a + 1) s
  | some v =>
    cases hv : v.isStr with
    | false =>
      rw [genLoop_attr resp a f s v he hv]
    | true =>
      cases v with
      | str e =>
        cases hl : strContains (pyLower e) "loading" with
        | true =>
          rw [genLoop_loading resp a f s e he hl]
          exact genLoop_attempts_lb resp f (a + 1) (s + 1)
        | false =>
          rw [genLoop_error_stop resp a f s e he hl]
      | null => simp [Json.isStr] at hv
      | num n => simp [Json.isStr] at hv
      | arr l => simp [Json.isStr] at hv
      | obj fs => simp [Json.isStr] at hv

/-! ### Helper lemmas about the substring test -/

theorem listStartsWith_append (p : List Char) :
    ∀ a b : List Char, listStartsWith p a = true → listStartsWith p (a ++ b) = true := by
  induction p with
  | nil => intro a b _; rfl
  | cons x ps ih =>
    intro a b h
    cases a with
    | nil => simp [listStartsWith] at h
    | cons c cs =>
      simp only [listStartsWith, Bool.and_eq_true] at h
      simp only [List.cons_append, listStartsWith, Bool.and_eq_true]
      exact ⟨h.1, ih cs b h.2⟩

theorem listContains_nil_pat : ∀ s : List Char, listContains [] s = true := by
  intro s
  cases s with
  | nil => rfl
  | cons c cs => simp [listContains, listStartsWith]

theorem listContains_append_left (p : List Char) :
    ∀ a b : List Char, listContains p a = true → listContains p (a ++ b) = true := by
  intro a
  induction a with
  | nil =>
    intro b h
    cases p with
    | nil => exact listContains_nil_pat b
    | cons x ps => simp [listContains, listStartsWith] at h
  | cons c cs ih =>
    intro b h
    simp only [listContains, Bool.or_eq_true] at h
    simp only [List.cons_append, listContains, Bool.or_eq_true]
    cases h with
    | inl h => exact Or.inl (listStartsWith_append p (c :: cs) b h)
    | inr h => exact Or.inr (ih b h)

theorem listContains_append_right (p : List Char) :
    ∀ a b : List Char, listContains p b = true → listContains p (a ++ b) = true := by
  intro a
  induction a with
  | nil => intro b h; exact h
  | cons c cs ih =>
    intro b h
    simp only [List.cons_append, listContains, Bool.or_eq_true]
    exact Or.inr (ih b h)

theorem listStartsWith_self (p : List Char) :
    ∀ r : List Char, listStartsWith p (p ++ r) = true := by
  induction p with
  | nil => intro r; rfl
  | cons x ps ih =>
    intro r
    simp only [List.cons_append, listStartsWith, Bool.and_eq_true]
    exact ⟨beq_self_eq_true x, ih r⟩

theorem listContains_self (p : List Char) (r : List Char) :
    listContains p (p ++ r) = true := by
  cases p with
  | nil => exact listContains_nil_pat r
  | cons x ps =>
    simp only [List.cons_append, listContains, Bool.or_eq_true]
    exact Or.inl (listStartsWith_self (x :: ps) r)

theorem listStartsWith_map (f : Char → Char) (p : List Char) :
    ∀ s : List Char, listStartsWith p s = true →
      listStartsWith (p.map f) (s.map f) = true := by
  induction p with
  | nil => intro s _; rfl
  | cons x ps ih =>
    intro s h
    cases s with
    | nil => simp [listStartsWith] at h
    | cons c cs =>
      simp only [listStartsWith, Bool.and_eq_true, beq_iff_eq] at h
      simp only [List.map_cons, listStartsWith, Bool.and_eq_true, beq_iff_eq]
      exact ⟨by rw [h.1], ih cs h.2⟩

theorem listContains_map (f : Char → Char) (p : List Char) :
    ∀ s : List Char, listContains p s = true →
      listContains (p.map f) (s.map f) = true := by
  intro s
  induction s with
  | nil =>
    intro h
    cases p with
    | nil => rfl
    | cons x ps => simp [listContains, listStartsWith] at h
  | cons c cs ih =>
    intro h
    simp only [listContains, Bool.or_eq_true] at h
    simp only [List.map_cons, listContains, Bool.or_eq_true]
    cases h with
    | inl h =>
      have := listStartsWith_map f p (c :: cs) h
      simp only [List.map_cons] at this
      exact Or.inl this
    | inr h => exact Or.inr (ih h)

theorem strContains_append_right (a b pat : String) (h : strContains b pat = true) :
    strContains (a ++ b) pat = true := by
  unfold strContains at h ⊢
  rw [String.data_append]
  exact listContains_append_right pat.data a.data b.data h

theorem strContains_append_left (a b pat : String) (h : strContains a pat = true) :
    strContains (a ++ b) pat = true := by
  unfold strContains at h ⊢
  rw [String.data_append]
  exact listContains_append_left pat.data a.data b.data h

theorem strContains_self_append (p r : String) : strContains (p ++ r) p = true := by
  unfold strContains
  rw [String.data_append]
  exact listContains_self p.data r.data

/-- Lowercasing is character-wise, so it preserves the substring test:
this is why any letter-case variant of `"loading"` in the raw error text
makes `pyLower` produce a text containing `"loading"`. -/
theorem strContains_pyLower (s pat : String) (h : strContains s pat = true) :
    strContains (pyLower s) (pyLower pat) = true := by
  unfold strContains pyLower
  simp only [List.asString]
  exact listContains_map Char.toLower pat.data s.data h

/-! ### Helper lemmas about the literature filter -/

theorem collectArticles_abstract (a : Article) :
    ∀ raw : List RawArticle, a ∈ collectArticles raw → a.abstract ≠ "" := by
  intro raw
  induction raw with
  | nil => intro h; simp [collectArticles] at h
  | cons r rs ih =>
    intro h
    cases hr : r.abstract with
    | none =>
      simp only [collectArticles, hr] at h
      exact ih h
    | some ab =>
      simp only [collectArticles, hr] at h
      by_cases hab : ab = ""
      · rw [if_pos hab] at h
        exact ih h
      · rw [if_neg hab] at h
        cases h with
        | head => exact hab
        | tail _ h => exact ih h

theorem get_pubmed_literature_abstract (searchRes : Except Unit Json)
    (fetchRes : Except Unit (List RawArticle)) (a : Article)
    (h : a ∈ get_pubmed_literature searchRes fetchRes) : a.abstract ≠ "" := by
  cases searchRes with
  | error u => simp [get_pubmed_literature] at h
  | ok search =>
    cases hes : pyGetDefault search "esearchresult" (.obj []) with
    | error u => simp [get_pubmed_literature, hes] at h
    | ok esr =>
      cases hid : pyGetDefault esr "idlist" (.arr []) with
      | error u => simp [get_pubmed_literature, hes, hid] at h
      | ok ids =>
        by_cases htr : ids.truthy = false
        · simp [get_pubmed_literature, hes, hid, htr] at h
        · by_cases hj : joinRaisesOn ids = true
          · simp [get_pubmed_literature, hes, hid, htr, hj] at h
          · cases fetchRes with
            | error u => simp [get_pubmed_literature, hes, hid, htr, hj] at h
            | ok raw =>
              simp only [get_pubmed_literature, hes, hid, if_neg htr,
                Bool.not_eq_true] at h
              rw [if_neg hj] at h
              exact collectArticles_abstract a raw h

/-! ### Response shapes written from the specification's words -/

/-- Transcribed from the claim's words (refinement comparison only): "a
non-empty list whose first element is an object carrying a generated-text
field". -/
def specShapeList : Json → Bool
  | .arr (first :: _) =>
    match first with
    | .obj fs => (lookupKey fs "generated_text").isSome
    | _ => false
  | _ => false

/-- Transcribed from the claim's words (refinement comparison only): "a
single object carrying that field". -/
def specShapeDict : Json → Bool
  | .obj fs => (lookupKey fs "generated_text").isSome
  | _ => false

/-! ### Helper lemmas about prompt containment -/

theorem buildPrompt_contains_tail (c l q pat : String)
    (h : strContains promptTail pat = true) :
    strContains (buildPrompt c l q) pat = true := by
  unfold buildPrompt
  apply strContains_append_right
  apply strContains_append_right
  apply strContains_append_right
  apply strContains_append_right
  apply strContains_append_right
  apply strContains_append_right
  exact h

theorem buildPrompt_contains_query (c l q : String) :
    strContains (buildPrompt c l q) q = true := by
  unfold buildPrompt
  apply strContains_append_right
  exact strContains_self_append q _

theorem buildPrompt_contains_chem (c l q : String) :
    strContains (buildPrompt c l q) c = true := by
  unfold buildPrompt
  apply strContains_append_right
  apply strContains_append_right
  apply strContains_append_right
  exact strContains_self_append c _

theorem buildPrompt_contains_lit (c l q : String) :
    strContains (buildPrompt c l q) l = true := by
  unfold buildPrompt
  apply strContains_append_right
  apply strContains_append_right
  apply strContains_append_right
  apply strContains_append_right
  apply strContains_append_right
  exact strContains_self_append l _

/-! ### Claim theorems -/

/-- C4: every run of the report generator makes at most 3 inference
attempts, and when every attempt yields an error whose text reports
loading, the generator returns the fixed busy message as an ordinary
string value (no exception crosses its boundary), after 3 sleeps and 3
attempts. -/
theorem C4_retry_budget (chem : Option ChemData) (articles : List Article)
    (query : String) (resp free : Nat → HttpOutcome)
    (h : ∀ i, i < 3 → ∃ e, errorText (query_huggingface (resp i)) = some (.str e) ∧
          strContains (pyLower e) "loading" = true) :
    (generate_ai_review chem articles query free).attempts ≤ 3 ∧
    generate_ai_review chem articles query resp
      = ⟨buildPrompt (chem_context chem) (lit_context articles) query,
         .ok (.str busyMessage), 3, 3⟩ := by
  constructor
  · have hle : (genLoop free 0 3 0).attempts ≤ 0 + 3 := genLoop_attempts_le free 3 0 0
    unfold generate_ai_review
    exact hle
  · obtain ⟨e0, he0, hl0⟩ := h 0 (by omega)
    obtain ⟨e1, he1, hl1⟩ := h 1 (by omega)
    obtain ⟨e2, he2, hl2⟩ := h 2 (by omega)
    have s1 : genLoop resp 0 3 0 = genLoop resp 1 2 1 :=
      genLoop_loading resp 0 2 0 e0 he0 hl0
    have s2 : genLoop resp 1 2 1 = genLoop resp 2 1 2 :=
      genLoop_loading resp 1 1 1 e1 he1 hl1
    have s3 : genLoop resp 2 1 2 = genLoop resp 3 0 3 :=
      genLoop_loading resp 2 0 2 e2 he2 hl2
    have s4 : genLoop resp 3 0 3 = ⟨.ok (.str busyMessage), 3, 3⟩ := rfl
    unfold generate_ai_review
    rw [s1, s2, s3, s4]

/-- C4 witness: three attempts all answering `{"error": "Model ... is
currently loading"}` produce the busy message after 3 sleeps. -/
theorem C4_retry_budget_witness :
    (∀ i, i < 3 → ∃ e,
        errorText (query_huggingface
          (respSeq [.body (.obj [("error", .str "Model is currently loading")]),
                    .body (.obj [("error", .str "Model is currently loading")]),
                    .body (.obj [("error", .str "Model is currently loading")])] i))
          = some (.str e) ∧
        strContains (pyLower e) "loading" = true) ∧
    generate_ai_review none [] "Fura-2"
        (respSeq [.body (.obj [("error", .str "Model is currently loading")]),
                  .body (.obj [("error", .str "Model is currently loading")]),
                  .body (.obj [("error", .str "Model is currently loading")])])
      = ⟨buildPrompt (chem_context none) (lit_context []) "Fura-2",
         .ok (.str busyMessage), 3, 3⟩ := by
  have h : ∀ i, i < 3 → ∃ e,
      errorText (query_huggingface
        (respSeq [.body (.obj [("error", .str "Model is currently loading")]),
                  .body (.obj [("error", .str "Model is currently loading")]),
                  .body (.obj [("error", .str "Model is currently loading")])] i))
        = some (.str e) ∧
      strContains (pyLower e) "loading" = true := by
    intro i hi
    refine ⟨"Model is currently loading", ?_, by decide⟩
    interval_cases i <;> rfl
  exact ⟨h, (C4_retry_budget none [] "Fura-2" _ (fun _ => .exn "x") h).2⟩

/-- C5: a response body that is an object whose "error" field's text does
not contain "loading" makes the generator halt on that first attempt: the
report is the error message with the "⚠️ AI Error: " marker, no retry and
no delay happens. -/
theorem C5_error_halts (chem : Option ChemData) (articles : List Article)
    (query : String) (resp : Nat → HttpOutcome) (fs : List (String × Json)) (e : String)
    (h0 : resp 0 = .body (.obj fs))
    (he : lookupKey fs "error" = some (.str e))
    (hl : strContains (pyLower e) "loading" = false) :
    generate_ai_review chem articles query resp
      = ⟨buildPrompt (chem_context chem) (lit_context articles) query,
         .ok (.str ("⚠️ AI Error: " ++ e)), 0, 1⟩ := by
  have he' : errorText (query_huggingface (resp 0)) = some (.str e) := by
    rw [h0]
    simpa [query_huggingface, errorText] using he
  have s1 : genLoop resp 0 3 0 = ⟨.ok (.str ("⚠️ AI Error: " ++ e)), 0, 1⟩ :=
    genLoop_error_stop resp 0 2 0 e he' hl
  unfold generate_ai_review
  rw [s1]

/-- C5 witness: a rate-limit error (no "loading" in its text) is returned
prefixed, after exactly one attempt and zero delays. -/
theorem C5_error_halts_witness :
    strContains (pyLower "Rate limit exceeded") "loading" = false ∧
    generate_ai_review none [] "Fura-2"
        (respSeq [.body (.obj [("error", .str "Rate limit exceeded")])])
      = ⟨buildPrompt (chem_context none) (lit_context []) "Fura-2",
         .ok (.str ("⚠️ AI Error: " ++ "Rate limit exceeded")), 0, 1⟩ :=
  ⟨by decide,
   C5_error_halts none [] "Fura-2" _ [("error", .str "Rate limit exceeded")]
     "Rate limit exceeded" rfl rfl (by decide)⟩

/-- C9: when every attempt parses to a generated-text field holding the
empty string, the extracted text is falsy, so each attempt retries
(without sleeping) and the run ends with the busy-message fallback — the
caller never receives an empty report. -/
theorem C9_empty_text (chem : Option ChemData) (articles : List Article)
    (query : String) (resp : Nat → HttpOutcome)
    (h : ∀ i, i < 3 → errorText (query_huggingface (resp i)) = none ∧
          parse_hf_output (query_huggingface (resp i)) = some (.str "")) :
    generate_ai_review chem articles query resp
      = ⟨buildPrompt (chem_context chem) (lit_context articles) query,
         .ok (.str busyMessage), 0, 3⟩ ∧
    busyMessage ≠ "" := by
  have hf : Json.truthy (.str "") = false := by decide
  obtain ⟨he0, hp0⟩ := h 0 (by omega)
  obtain ⟨he1, hp1⟩ := h 1 (by omega)
  obtain ⟨he2, hp2⟩ := h 2 (by omega)
  constructor
  · have s1 : genLoop resp 0 3 0 = genLoop resp 1 2 0 :=
      genLoop_skip_falsy resp 0 2 0 (.str "") he0 hp0 hf
    have s2 : genLoop resp 1 2 0 = genLoop resp 2 1 0 :=
      genLoop_skip_falsy resp 1 1 0 (.str "") he1 hp1 hf
    have s3 : genLoop resp 2 1 0 = genLoop resp 3 0 0 :=
      genLoop_skip_falsy resp 2 0 0 (.str "") he2 hp2 hf
    have s4 : genLoop resp 3 0 0 = ⟨.ok (.str busyMessage), 0, 3⟩ := rfl
    unfold generate_ai_review
    rw [s1, s2, s3, s4]
  · decide

/-- C9 witness: three `{"generated_text": ""}` responses yield the busy
fallback, not an empty report. -/
theorem C9_empty_text_witness :
    (∀ i, i < 3 →
        errorText (query_huggingface
          (respSeq [.body (.obj [("generated_text", .str "")]),
                    .body (.obj [("generated_text", .str "")]),
                    .body (.obj [("generated_text", .str "")])] i)) = none ∧
        parse_hf_output (query_huggingface
          (respSeq [.body (.obj [("generated_text", .str "")]),
                    .body (.obj [("generated_text", .str "")]),
                    .body (.obj [("generated_text", .str "")])] i))
          = some (.str "")) ∧
    generate_ai_review none [] "Fura-2"
        (respSeq [.body (.obj [("generated_text", .str "")]),
                  .body (.obj [("generated_text", .str "")]),
                  .body (.obj [("generated_text", .str "")])])
      = ⟨buildPrompt (chem_context none) (lit_context []) "Fura-2",
         .ok (.str busyMessage), 0, 3⟩ := by
  have h : ∀ i, i < 3 →
      errorText (query_huggingface
        (respSeq [.body (.obj [("generated_text", .str "")]),
                  .body (.obj [("generated_text", .str "")]),
                  .body (.obj [("generated_text", .str "")])] i)) = none ∧
      parse_hf_output (query_huggingface
        (respSeq [.body (.obj [("generated_text", .str "")]),
                  .body (.obj [("generated_text", .str "")]),
                  .body (.obj [("generated_text", .str "")])] i))
        = some (.str "") := by
    intro i hi
    interval_cases i <;> exact ⟨rfl, rfl⟩
  exact ⟨h, (C9_empty_text none [] "Fura-2" _ h).1⟩

/-- C10: the error text is lowercased (`pyLower`) before the "loading"
substring test, so an error containing "loading" in any letter case makes
the first attempt sleep once and retry; lowercasing preserves the
substring test character-wise, so every case variant of the word is
caught. -/
theorem C10_case_insensitive (e : String) (r1 r2 : HttpOutcome)
    (hl : strContains (pyLower e) "loading" = true) :
    genLoop (respSeq [.body (.obj [("error", .str e)]), r1, r2]) 0 3 0
      = genLoop (respSeq [.body (.obj [("error", .str e)]), r1, r2]) 1 2 1 ∧
    (∀ s pat : String, strContains s pat = true →
      strContains (pyLower s) (pyLower pat) = true) := by
  constructor
  · have he : errorText (query_huggingface
        (respSeq [.body (.obj [("error", .str e)]), r1, r2] 0)) = some (.str e) := by
      simp [respSeq, query_huggingface, errorText, lookupKey]
    exact genLoop_loading _ 0 2 0 e he hl
  · exact strContains_pyLower

/-- C10 witness: the upper-case error text "Model is LOADING" triggers the
sleep-and-retry step. -/
theorem C10_case_insensitive_witness :
    strContains (pyLower "Model is LOADING") "loading" = true ∧
    genLoop (respSeq [.body (.obj [("error", .str "Model is LOADING")]),
                      .body (.obj [("generated_text", .str "ok")]),
                      .body (.obj [("generated_text", .str "ok")])]) 0 3 0
      = genLoop (respSeq [.body (.obj [("error", .str "Model is LOADING")]),
                          .body (.obj [("generated_text", .str "ok")]),
                          .body (.obj [("generated_text", .str "ok")])]) 1 2 1 :=
  ⟨by decide,
   (C10_case_insensitive "Model is LOADING"
     (.body (.obj [("generated_text", .str "ok")]))
     (.body (.obj [("generated_text", .str "ok")])) (by decide)).1⟩

/-- C6: the assembled literature context takes at most 3 items, in
source-provided order (a prefix of the fetched list); every article the
literature client returns has a non-empty abstract; and each rendered item
truncates the abstract to at most 300 characters followed by the "..."
marker. -/
theorem C6_literature_truncation (searchRes : Except Unit Json)
    (fetchRes : Except Unit (List RawArticle)) :
    ((get_pubmed_literature searchRes fetchRes).take 3).length ≤ 3 ∧
    (∀ a : Article, a ∈ get_pubmed_literature searchRes fetchRes → a.abstract ≠ "") ∧
    lit_context (get_pubmed_literature searchRes fetchRes)
      = (if (get_pubmed_literature searchRes fetchRes).isEmpty
         then "No specific literature abstracts found in PubMed."
         else String.join
           (((get_pubmed_literature searchRes fetchRes).take 3).map renderArticle)) ∧
    (∀ a : Article,
      renderArticle a
        = "- Title: " ++ pyStrOpt a.title ++ "\n  Abstract: "
            ++ pyTake a.abstract 300 ++ "...\n" ∧
      (pyTake a.abstract 300).length ≤ 300) := by
  refine ⟨?_, ?_, rfl, ?_⟩
  · rw [List.length_take]
    omega
  · intro a ha
    exact get_pubmed_literature_abstract searchRes fetchRes a ha
  · intro a
    refine ⟨rfl, ?_⟩
    show (a.abstract.data.take 300).length ≤ 300
    rw [List.length_take]
    omega

/-- C6 witness: a fetched article with a non-empty abstract is kept, and
its abstract is non-empty. -/
theorem C6_literature_truncation_witness :
    (⟨some "T", "Abstract text"⟩ : Article)
      ∈ get_pubmed_literature
          (.ok (.obj [("esearchresult", .obj [("idlist", .arr [.str "101"])])]))
          (.ok [⟨some "T", some "Abstract text"⟩]) ∧
    (⟨some "T", "Abstract text"⟩ : Article).abstract ≠ "" := by
  have hm : (⟨some "T", "Abstract text"⟩ : Article)
      ∈ get_pubmed_literature
          (.ok (.obj [("esearchresult", .obj [("idlist", .arr [.str "101"])])]))
          (.ok [⟨some "T", some "Abstract text"⟩]) := by
    show (⟨some "T", "Abstract text"⟩ : Article) ∈ [⟨some "T", "Abstract text"⟩]
    exact List.Mem.head []
  exact ⟨hm, (C6_literature_truncation
    (.ok (.obj [("esearchresult", .obj [("idlist", .arr [.str "101"])])]))
    (.ok [⟨some "T", some "Abstract text"⟩])).2.1 _ hm⟩

/-- C7: both lookup clients convert every transport/parse failure into
their absence sentinel (None for chemistry, the empty list for
literature) instead of propagating it; the chemistry client returns
absent when the name search resolves to zero compounds (empty CID list or
a fault body without an identifier list), and returns a populated record
on a well-formed pair of responses. -/
theorem C7_lookup_sentinels (propsRes : Json → Except Unit Json)
    (fetchRes : Except Unit (List RawArticle)) :
    get_pubchem_data (.error ()) propsRes = none ∧
    get_pubchem_data (.ok (.obj [("IdentifierList", .obj [("CID", .arr [])])])) propsRes
      = none ∧
    get_pubchem_data (.ok (.obj [("Fault", .str "No CID found")])) propsRes = none ∧
    get_pubchem_data (.ok (.obj [("IdentifierList", .obj [("CID", .arr [.num 5])])]))
      (fun _ => .error ()) = none ∧
    get_pubchem_data (.ok (.obj [("IdentifierList", .obj [("CID", .arr [.num 5])])]))
      (fun _ => .ok (.obj [("PropertyTable", .obj [("Properties",
        .arr [.obj [("CanonicalSMILES", .str "CCO"),
                    ("MolecularFormula", .str "C2H6O")]])])]))
      = some ⟨.num 5, .str "CCO", .str "C2H6O",
              pubchemImage (.num 5), pubchemLink (.num 5)⟩ ∧
    get_pubmed_literature (.error ()) fetchRes = [] ∧
    get_pubmed_literature
      (.ok (.obj [("esearchresult", .obj [("idlist", .arr [.str "101"])])]))
      (.error ()) = [] ∧
    get_pubmed_literature (.ok (.obj [("esearchresult", .obj [("idlist", .arr [])])]))
      fetchRes = [] :=
  ⟨rfl, rfl, rfl, rfl, rfl, rfl, rfl, by
    show (if (Json.arr []).truthy = false then ([] : List Article)
          else if joinRaisesOn (.arr []) then []
          else match fetchRes with
               | .error _ => []
               | .ok raw => collectArticles raw) = []
    rfl⟩

/-- C1 counterexample: when the endpoint answers HTTP 503 on the first
attempt, `raise_for_status` raises and the error text "503 Server Error:
Service Unavailable for url: ..." does not contain "loading", so the
generator terminates immediately with the prefixed error — the claimed
503/503/success scenario never reaches the successful text and records
zero retry delays. -/
theorem C1_cex :
    (generate_ai_review none [] "Fura-2"
        (respSeq [.exn (serverErrorMessage 503 "Service Unavailable" API_URL),
                  .exn (serverErrorMessage 503 "Service Unavailable" API_URL),
                  .body (.obj [("generated_text", .str "SUCCESS TEXT")])])).value
      = .ok (.str ("⚠️ AI Error: "
          ++ serverErrorMessage 503 "Service Unavailable" API_URL)) ∧
    (generate_ai_review none [] "Fura-2"
        (respSeq [.exn (serverErrorMessage 503 "Service Unavailable" API_URL),
                  .exn (serverErrorMessage 503 "Service Unavailable" API_URL),
                  .body (.obj [("generated_text", .str "SUCCESS TEXT")])])).sleeps = 0 ∧
    (generate_ai_review none [] "Fura-2"
        (respSeq [.exn (serverErrorMessage 503 "Service Unavailable" API_URL),
                  .exn (serverErrorMessage 503 "Service Unavailable" API_URL),
                  .body (.obj [("generated_text", .str "SUCCESS TEXT")])])).attempts = 1 ∧
    ("⚠️ AI Error: " ++ serverErrorMessage 503 "Service Unavailable" API_URL)
      ≠ "SUCCESS TEXT" :=
  ⟨rfl, rfl, rfl, by decide⟩

/-- C1 amended: a retry happens when the decoded body reports an error
text containing "loading" (with one recorded delay), and when the body
carries neither an error field nor recognizable generated text (with no
delay); a non-success HTTP status instead surfaces as requests' exception
text, which does not contain "loading", so the attempt terminates the run
immediately with the prefixed error message. -/
theorem C1_amended (resp : Nat → HttpOutcome) (a f s : Nat) :
    (∀ e, errorText (query_huggingface (resp a)) = some (.str e) →
      strContains (pyLower e) "loading" = true →
      genLoop resp a (f + 1) s = genLoop resp (a + 1) f (s + 1)) ∧
    (errorText (query_huggingface (resp a)) = none →
      parse_hf_output (query_huggingface (resp a)) = none →
      genLoop resp a (f + 1) s = genLoop resp (a + 1) f s) ∧
    (resp a = .exn (serverErrorMessage 503 "Service Unavailable" API_URL) →
      genLoop resp a (f + 1) s
        = ⟨.ok (.str ("⚠️ AI Error: "
            ++ serverErrorMessage 503 "Service Unavailable" API_URL)), s, a + 1⟩) := by
  refine ⟨?_, ?_, ?_⟩
  · intro e he hl
    exact genLoop_loading resp a f s e he hl
  · intro he hp
    exact genLoop_skip_none resp a f s he hp
  · intro h
    have he : errorText (query_huggingface (resp a))
        = some (.str (serverErrorMessage 503 "Service Unavailable" API_URL)) := by
      rw [h]; rfl
    have hl : strContains
        (pyLower (serverErrorMessage 503 "Service Unavailable" API_URL))
        "loading" = false := by decide
    exact genLoop_error_stop resp a f s _ he hl

/-- C1 amended, witness: a "Loading model" body retries with a delay, an
unrecognizable body retries without one, and a 503 exception terminates
the run at once. -/
theorem C1_amended_witness :
    genLoop (respSeq [.body (.obj [("error", .str "Loading model")])]) 0 3 0
      = genLoop (respSeq [.body (.obj [("error", .str "Loading model")])]) 1 2 1 ∧
    genLoop (respSeq [.body (.arr [])]) 0 3 0
      = genLoop (respSeq [.body (.arr [])]) 1 2 0 ∧
    genLoop (respSeq [.exn (serverErrorMessage 503 "Service Unavailable" API_URL)]) 0 3 0
      = ⟨.ok (.str ("⚠️ AI Error: "
          ++ serverErrorMessage 503 "Service Unavailable" API_URL)), 0, 1⟩ :=
  ⟨(C1_amended (respSeq [.body (.obj [("error", .str "Loading model")])]) 0 2 0).1
      "Loading model" rfl (by decide),
   (C1_amended (respSeq [.body (.arr [])]) 0 2 0).2.1 rfl rfl,
   (C1_amended (respSeq [.exn (serverErrorMessage 503 "Service Unavailable" API_URL)])
      0 2 0).2.2 rfl⟩

/-- C2 counterexample: with the chemistry record absent and the literature
list empty, the query block renders the "No data found" warning and never
invokes the report generator, although the query string is present. -/
theorem C2_cex :
    handle_query "Fura-2" none []
        (respSeq [.body (.obj [("generated_text", .str "ok")])]) = .noData ∧
    (∀ g : GenResult, UIOutcome.noData ≠ UIOutcome.review g) :=
  ⟨rfl, fun _ h => UIOutcome.noConfusion h⟩

/-- C2 amended: generation is attempted iff the query is non-empty and at
least one of the two lookups returned data (`if chem or articles:`); when
both are absent the block shows the warning and skips generation.  When
generation does run it always builds the prompt — with explicit
placeholder text for the absent sources — and calls the backend at least
once. -/
theorem C2_amended (query : String) (chem : Option ChemData) (articles : List Article)
    (resp : Nat → HttpOutcome) (hq : query ≠ "") :
    ((chem.isSome || !articles.isEmpty) = true →
      handle_query query chem articles resp
        = .review (generate_ai_review chem articles query resp) ∧
      (generate_ai_review chem articles query resp).prompt
        = buildPrompt (chem_context chem) (lit_context articles) query ∧
      1 ≤ (generate_ai_review chem articles query resp).attempts) ∧
    ((chem.isSome || !articles.isEmpty) = false →
      handle_query query chem articles resp = .noData) ∧
    chem_context none = "Structure unavailable." ∧
    lit_context [] = "No specific literature abstracts found in PubMed." := by
  refine ⟨?_, ?_, rfl, rfl⟩
  · intro hg
    refine ⟨?_, rfl, ?_⟩
    · unfold handle_query
      rw [if_neg hq, if_pos hg]
    · exact genLoop_attempts_pos resp 2 0 0
  · intro hg
    unfold handle_query
    rw [if_neg hq, hg]
    rfl

/-- C2 amended, witness: a non-empty query with an empty chemistry record
but one literature article still triggers generation. -/
theorem C2_amended_witness :
    ("Bimane" : String) ≠ "" ∧
    handle_query "Bimane" none [⟨some "T", "A"⟩]
        (respSeq [.body (.obj [("generated_text", .str "R")])])
      = .review (generate_ai_review none [⟨some "T", "A"⟩] "Bimane"
          (respSeq [.body (.obj [("generated_text", .str "R")])])) :=
  ⟨by decide,
   ((C2_amended "Bimane" none [⟨some "T", "A"⟩]
       (respSeq [.body (.obj [("generated_text", .str "R")])])
       (by decide)).1 (by decide)).1⟩

/-- C3 counterexample: the concrete prompt built for query "Fura-2" with
both sources absent contains no "Limitations" section, no "Chemical
Properties" heading, and no wikipedia/encyclopedia block in any letter
case — refuting the claimed four placeholders and five-section structure. -/
theorem C3_cex :
    strContains (buildPrompt (chem_context none) (lit_context []) "Fura-2")
      "Limitations" = false ∧
    strContains (buildPrompt (chem_context none) (lit_context []) "Fura-2")
      "Chemical Properties" = false ∧
    strContains (pyLower (buildPrompt (chem_context none) (lit_context []) "Fura-2"))
      "wikipedia" = false ∧
    strContains (pyLower (buildPrompt (chem_context none) (lit_context []) "Fura-2"))
      "encyclopedia" = false :=
  ⟨by decide, by decide, by decide, by decide⟩

/-- C3 amended: the prompt embeds exactly three data placeholders — the
query, the chemistry text block and the literature text block — and
requires the four-section structure Overview, Properties, Performance,
Applications. -/
theorem C3_amended (chem : Option ChemData) (articles : List Article)
    (query : String) (resp : Nat → HttpOutcome) :
    (generate_ai_review chem articles query resp).prompt
      = promptPre ++ (query ++ (promptMid1 ++ (chem_context chem
          ++ (promptMid2 ++ (lit_context articles ++ promptTail))))) ∧
    strContains (buildPrompt (chem_context chem) (lit_context articles) query)
      "**1. Overview:**" = true ∧
    strContains (buildPrompt (chem_context chem) (lit_context articles) query)
      "**2. Properties:**" = true ∧
    strContains (buildPrompt (chem_context chem) (lit_context articles) query)
      "**3. Performance:**" = true ∧
    strContains (buildPrompt (chem_context chem) (lit_context articles) query)
      "**4. Applications:**" = true ∧
    strContains (buildPrompt (chem_context chem) (lit_context articles) query)
      query = true ∧
    strContains (buildPrompt (chem_context chem) (lit_context articles) query)
      (chem_context chem) = true ∧
    strContains (buildPrompt (chem_context chem) (lit_context articles) query)
      (lit_context articles) = true :=
  ⟨rfl,
   buildPrompt_contains_tail _ _ _ _ (by decide),
   buildPrompt_contains_tail _ _ _ _ (by decide),
   buildPrompt_contains_tail _ _ _ _ (by decide),
   buildPrompt_contains_tail _ _ _ _ (by decide),
   buildPrompt_contains_query _ _ _,
   buildPrompt_contains_chem _ _ _,
   buildPrompt_contains_lit _ _ _⟩

/-- C8 counterexample: a response object carrying both an "error" field
and a "generated_text" field matches the dict shape (the parser would
return "hi"), yet the generator's error branch intercepts it first and
returns the prefixed error — the matching response is not returned
verbatim. -/
theorem C8_cex :
    parse_hf_output (.obj [("error", .str "boom"), ("generated_text", .str "hi")])
      = some (.str "hi") ∧
    specShapeDict (.obj [("error", .str "boom"), ("generated_text", .str "hi")])
      = true ∧
    (generate_ai_review none [] "Fura-2"
        (respSeq [.body (.obj [("error", .str "boom"),
                               ("generated_text", .str "hi")])])).value
      = .ok (.str "⚠️ AI Error: boom") ∧
    ("⚠️ AI Error: boom" : String) ≠ "hi" :=
  ⟨rfl, rfl, rfl, by decide⟩

/-- C8 amended: the parser recognizes generated text under exactly the two
shapes (non-empty list headed by an object with the field, or an object
with the field), returning the field's value; the generator returns that
value verbatim for the first response that carries no error field and
whose extracted text is truthy. -/
theorem C8_amended (resp : Nat → HttpOutcome) (t : Json)
    (he : errorText (query_huggingface (resp 0)) = none)
    (hp : parse_hf_output (query_huggingface (resp 0)) = some t)
    (ht : Json.truthy t = true) :
    (∀ j, (parse_hf_output j).isSome = (specShapeList j || specShapeDict j)) ∧
    (∀ (fs : List (String × Json)) (rest : List Json),
      parse_hf_output (.arr (.obj fs :: rest)) = lookupKey fs "generated_text") ∧
    (∀ fs : List (String × Json),
      parse_hf_output (.obj fs) = lookupKey fs "generated_text") ∧
    (∀ (chem : Option ChemData) (articles : List Article) (query : String),
      generate_ai_review chem articles query resp
        = ⟨buildPrompt (chem_context chem) (lit_context articles) query,
           .ok t, 0, 1⟩) := by
  refine ⟨?_, ?_, ?_, ?_⟩
  · intro j
    cases j with
    | null => rfl
    | num n => rfl
    | str s => rfl
    | arr l =>
      cases l with
      | nil => rfl
      | cons first rest =>
        cases first with
        | obj fs =>
          simp only [parse_hf_output, specShapeList, specShapeDict]
          cases hk : lookupKey fs "generated_text" with
          | none => simp
          | some v => simp
        | null => rfl
        | num n => rfl
        | str s => rfl
        | arr l2 => rfl
    | obj fs =>
      simp [parse_hf_output, specShapeList, specShapeDict]
  · intro fs rest
    simp only [parse_hf_output]
    cases hk : lookupKey fs "generated_text" with
    | none => rfl
    | some v => rfl
  · intro fs
    rfl
  · intro chem articles query
    have s1 : genLoop resp 0 3 0 = ⟨.ok t, 0, 1⟩ :=
      genLoop_success resp 0 2 0 t he hp ht
    unfold generate_ai_review
    rw [s1]

/-- C8 amended, witness: a plain `{"generated_text": "Great summary"}`
response is returned verbatim on the first attempt. -/
theorem C8_amended_witness :
    errorText (query_huggingface
      (respSeq [.body (.obj [("generated_text", .str "Great summary")])] 0)) = none ∧
    parse_hf_output (query_huggingface
      (respSeq [.body (.obj [("generated_text", .str "Great summary")])] 0))
      = some (.str "Great summary") ∧
    Json.truthy (.str "Great summary") = true ∧
    generate_ai_review none [] "Fura-2"
        (respSeq [.body (.obj [("generated_text", .str "Great summary")])])
      = ⟨buildPrompt (chem_context none) (lit_context []) "Fura-2",
         .ok (.str "Great summary"), 0, 1⟩ :=
  ⟨rfl, rfl, by decide,
   (C8_amended (respSeq [.body (.obj [("generated_text", .str "Great summary")])])
     (.str "Great summary") rfl rfl (by decide)).2.2.2 none [] "Fura-2"⟩

end DyeMind
